import Mathlib

/-
  Verification of the SMIOL decomposition and exchange core (smiol.c,
  smiol_utils.h) against its natural-language specification.

  Shallow embedding conventions:
  - C pointers become Option values; dereferencing a NULL pointer has no
    defined result, so functions that may dereference NULL return Option.
  - Out-parameters become components of the returned tuple.
  - size_t values become Nat; int and SMIOL_Offset values become Int.
  - MPI collectives and pnetcdf backend calls are external collaborators;
    their outcomes are supplied as explicit environment records, and the
    embedded functions additionally return the trace of calls they make
    into those collaborators where a claim depends on it.
  - smiol_utils.c is not part of the sources at hand; get_io_elements and
    build_exchange are modelled from the specification, as marked on each
    such definition.
-/

/-- Return codes of the SMIOL library, one constructor per distinct macro
from smiol.h. The numeric values of the macros are never compared with
anything but each other, so an inductive type is a faithful embedding. -/
inductive SMIOLCode where
  | SUCCESS
  | INVALID_ARGUMENT
  | MALLOC_FAILURE
  | MPI_ERROR
  | FORTRAN_ERROR
  | LIBRARY_ERROR
  | LIBRARY_PNETCDF_CODE
deriving DecidableEq

/-- SMIOL_Offset is a signed 64-bit integer type (smiol_types.h). -/
abbrev SMIOL_Offset := Int

/-- A triplet (peer_rank, local_slot, element_id) as stored in the flat
triplet tables of a decomposition. -/
abbrev Triplet := SMIOL_Offset × SMIOL_Offset × SMIOL_Offset

/-- The struct SMIOL_decomp: two triplet tables plus the contiguous window
(io_start, io_count) of the global index space handled by this rank
(fields from smiol_types.h as used throughout smiol.c). -/
structure SMIOL_decomp where
  comp_list : List Triplet
  io_list : List Triplet
  io_start : Nat
  io_count : Nat
deriving DecidableEq

/-- The struct SMIOL_context fields consumed by the embedded code paths:
the rank of this task and the size of the communicator group. -/
structure SMIOL_context where
  comm_size : Int
  comm_rank : Int
deriving DecidableEq

/-- The state constant PNETCDF_DEFINE_MODE (smiol.c line 9). -/
def pnetcdf_define_mode : Int := 0

/-- The state constant PNETCDF_DATA_MODE (smiol.c line 10). -/
def pnetcdf_data_mode : Int := 1

/-- The struct SMIOL_file fields consumed by the embedded code paths:
the current record frame and the define/data mode state. -/
structure SMIOL_file where
  frame : SMIOL_Offset
  state : Int
deriving DecidableEq

/-- The macro SMIOL_COMP_TO_IO = 1 (smiol_utils.h line 9). -/
def smiol_comp_to_io : Int := 1

/-- The macro SMIOL_IO_TO_COMP = 2 (smiol_utils.h line 10). -/
def smiol_io_to_comp : Int := 2

/-
  I/O partitioner (get_io_elements).
-/

/-- Whether comm_rank is an I/O rank under the policy (num_io_tasks,
io_stride): a rank r with 0 <= r < num_io_tasks * io_stride and
r mod io_stride = 0 (spec section 4.2). -/
def io_rank_b (comm_rank num_io_tasks io_stride : Int) : Bool :=
  decide (0 ≤ comm_rank ∧ comm_rank < num_io_tasks * io_stride ∧
          comm_rank % io_stride = 0)

/-- Size of the k-th contiguous block when n_global elements are divided
among num_io_tasks I/O ranks: the first n_global mod num_io_tasks blocks
hold one extra element (spec section 4.2). -/
def io_block_size (n_global num_io_tasks k : Nat) : Nat :=
  n_global / num_io_tasks + (if k < n_global % num_io_tasks then 1 else 0)

/-- Start of the k-th contiguous block: the sum of the sizes of all
preceding blocks (spec section 4.2). -/
def io_block_start (n_global num_io_tasks k : Nat) : Nat :=
  ((List.range k).map (io_block_size n_global num_io_tasks)).sum

/-- Modelled from the spec: get_io_elements, whose implementation file
smiol_utils.c is not among the sources (only its declaration in
smiol_utils.h lines 30-31). Per spec section 4.2 it maps (rank,
num_io_tasks, io_stride, n_global) to this ranks contiguous window,
returns (0, 0) on non-I/O ranks, and fails with INVALID_ARGUMENT when
num_io_tasks <= 0 or io_stride <= 0. The spec also calls for a failure
when num_io_tasks * io_stride exceeds the group size, but neither the
declared C signature nor the spec signature passes the group size to
this function, so that check cannot exist here; it is omitted. On the
failure path the out-parameters are modelled as left at zero. -/
def get_io_elements (comm_rank num_io_tasks io_stride : Int)
    (n_io_elements : Nat) : SMIOLCode × Nat × Nat :=
  if num_io_tasks ≤ 0 ∨ io_stride ≤ 0 then
    (SMIOLCode.INVALID_ARGUMENT, 0, 0)
  else if io_rank_b comm_rank num_io_tasks io_stride = true then
    (SMIOLCode.SUCCESS,
     io_block_start n_io_elements num_io_tasks.toNat
       (comm_rank.toNat / io_stride.toNat),
     io_block_size n_io_elements num_io_tasks.toNat
       (comm_rank.toNat / io_stride.toNat))
  else
    (SMIOLCode.SUCCESS, 0, 0)

/-
  SMIOL_free_decomp, SMIOL_finalize, SMIOL_close_file, frames.
-/

/-- SMIOL_free_decomp (smiol.c lines 1467-1479). The argument is the
outer pointer (struct SMIOL_decomp **). The function dereferences it
before any check, so a NULL outer pointer has no defined result (none);
otherwise it frees the two triplet tables and the handle when the inner
pointer is non-NULL, nulls the inner pointer, and returns SMIOL_SUCCESS. -/
def SMIOL_free_decomp (decomp : Option (Option SMIOL_decomp)) :
    Option (SMIOLCode × Option SMIOL_decomp) :=
  match decomp with
  | none => none
  | some none => some (SMIOLCode.SUCCESS, none)
  | some (some _) => some (SMIOLCode.SUCCESS, none)

/-- SMIOL_finalize (smiol.c lines 122-149). comm_free_ok is the outcome
of MPI_Comm_free. A NULL outer pointer, and a NULL inner pointer, both
return SMIOL_SUCCESS; otherwise the context is freed and nulled, with
SMIOL_MPI_ERROR reported when MPI_Comm_free failed. The second component
is the state of the callers context pointer cell on return. -/
def SMIOL_finalize (comm_free_ok : Bool)
    (context : Option (Option SMIOL_context)) :
    SMIOLCode × Option (Option SMIOL_context) :=
  match context with
  | none => (SMIOLCode.SUCCESS, none)
  | some none => (SMIOLCode.SUCCESS, some none)
  | some (some _) =>
      if comm_free_ok then (SMIOLCode.SUCCESS, some none)
      else (SMIOLCode.MPI_ERROR, some none)

/-- SMIOL_close_file (smiol.c lines 279-307, SMIOL_PNETCDF build).
close_ok is the outcome of ncmpi_close. A NULL outer pointer returns
SMIOL_SUCCESS without touching anything; a non-NULL outer pointer whose
inner pointer is NULL is dereferenced unchecked, so that case has no
defined result; otherwise the file is closed, freed and nulled. -/
def SMIOL_close_file (close_ok : Bool)
    (file : Option (Option SMIOL_file)) :
    Option (SMIOLCode × Option (Option SMIOL_file)) :=
  match file with
  | none => some (SMIOLCode.SUCCESS, none)
  | some none => none
  | some (some _) =>
      if close_ok then some (SMIOLCode.SUCCESS, some none)
      else some (SMIOLCode.LIBRARY_ERROR, some none)

/-- SMIOL_set_frame (smiol.c lines 1309-1316). Returns the code and the
state of the file object after the call. -/
def SMIOL_set_frame (file : Option SMIOL_file) (frame : SMIOL_Offset) :
    SMIOLCode × Option SMIOL_file :=
  match file with
  | none => (SMIOLCode.INVALID_ARGUMENT, none)
  | some f => (SMIOLCode.SUCCESS, some ⟨frame, f.state⟩)

/-- SMIOL_get_frame (smiol.c lines 1328-1335). frame_nonnull says whether
the callers output pointer is non-NULL; the second component is the value
written through it (none when nothing is written). -/
def SMIOL_get_frame (file : Option SMIOL_file) (frame_nonnull : Bool) :
    SMIOLCode × Option SMIOL_Offset :=
  match file, frame_nonnull with
  | some f, true => (SMIOLCode.SUCCESS, some f.frame)
  | _, _ => (SMIOLCode.INVALID_ARGUMENT, none)

/-
  SMIOL_create_decomp.
-/

/-- The io_elements array as filled by smiol.c lines 1421-1431 and handed
to build_exchange together with the length io_count: the dense values
io_start + i for i below io_count when io_count is positive, and a NULL
array (embedded as the empty list) when io_count is zero. -/
def build_io_elements (io_start io_count : Nat) : List SMIOL_Offset :=
  if 0 < io_count then
    (List.range io_count).map (fun i => ((io_start + i : Nat) : Int))
  else []

/-- Modelled from the spec: outcome of one call of build_exchange, whose
implementation file is not among the sources. Per spec section 4.3 the
builder either succeeds, producing the two triplet tables of a new
decomposition, or fails with exactly one of INVALID_ARGUMENT (global ID
set mismatch), MALLOC_FAILURE, or MPI_ERROR, in which case the output
decomp pointer is left NULL (spec sections 4.3 and 7). The outcome is an
oracle parameter of the embedding because it depends on the other ranks
of the group. -/
inductive ExchangeOutcome where
  | success (comp_list io_list : List Triplet)
  | invalid_argument
  | malloc_failure
  | mpi_error
deriving DecidableEq

/-- Calls made by SMIOL_create_decomp into the exchange-plan builder:
the compute-side count and ID list and the I/O-side count and ID list
that were handed to build_exchange. -/
inductive CreateEvent where
  | exchange_call (n_compute : Nat) (compute : List SMIOL_Offset)
      (n_io : Nat) (io : List SMIOL_Offset)
deriving DecidableEq

/-- Outcomes of the external collaborators used by SMIOL_create_decomp:
the MPI_Allreduce result (none is failure, some n is the group-wide sum
of n_compute_elements), whether the io_elements malloc succeeds, and the
build_exchange outcome. -/
structure CreateOracle where
  allreduce : Option Nat
  malloc_ok : Bool
  exchange : ExchangeOutcome

/-- SMIOL_create_decomp (smiol.c lines 1354-1453). The decomp0 argument
is the value of the callers decomp pointer cell before the call; the
second component of the result is its value on return. The third
component is the trace of calls into build_exchange. The return code of
get_io_elements is assigned to ierr at line 1415 but never examined
before ierr is overwritten by the build_exchange result at line 1436,
which this embedding reproduces. -/
def SMIOL_create_decomp (context : Option SMIOL_context)
    (n_compute_elements : Nat) (compute_elements : Option (List SMIOL_Offset))
    (num_io_tasks io_stride : Int)
    (decomp0 : Option SMIOL_decomp) (oracle : CreateOracle) :
    SMIOLCode × Option SMIOL_decomp × List CreateEvent :=
  match context with
  | none => (SMIOLCode.INVALID_ARGUMENT, decomp0, [])
  | some ctx =>
    if compute_elements = none ∧ n_compute_elements ≠ 0 then
      (SMIOLCode.INVALID_ARGUMENT, decomp0, [])
    else
      match oracle.allreduce with
      | none => (SMIOLCode.MPI_ERROR, decomp0, [])
      | some n_io_elements_global =>
        let gres := get_io_elements ctx.comm_rank num_io_tasks io_stride
            n_io_elements_global
        let io_start := gres.2.1
        let io_count := gres.2.2
        if 0 < io_count ∧ oracle.malloc_ok = false then
            (SMIOLCode.MALLOC_FAILURE, decomp0, [])
          else
            let io_elements := build_io_elements io_start io_count
            let ev := CreateEvent.exchange_call n_compute_elements
                (compute_elements.getD []) io_count io_elements
            match oracle.exchange with
            | ExchangeOutcome.success cl il =>
                (SMIOLCode.SUCCESS, some ⟨cl, il, io_start, io_count⟩, [ev])
            | ExchangeOutcome.invalid_argument =>
                (SMIOLCode.INVALID_ARGUMENT, none, [ev])
            | ExchangeOutcome.malloc_failure =>
                (SMIOLCode.MALLOC_FAILURE, none, [ev])
            | ExchangeOutcome.mpi_error =>
                (SMIOLCode.MPI_ERROR, none, [ev])

/-
  SMIOL_put_var and SMIOL_get_var.
-/

/-- Variable types accepted by the vartype switch in SMIOL_put_var and
SMIOL_get_var (smiol.c lines 860-873 and 1059-1072). -/
inductive SMIOL_vartype where
  | REAL32
  | REAL64
  | INT32
  | CHAR
deriving DecidableEq

/-- The dsize assigned by the vartype switch: sizeof(float),
sizeof(double), sizeof(int), sizeof(char) on the usual LP64 model. -/
def dsize : SMIOL_vartype → Nat
  | SMIOL_vartype.REAL32 => 4
  | SMIOL_vartype.REAL64 => 8
  | SMIOL_vartype.INT32 => 4
  | SMIOL_vartype.CHAR => 1

/-- What SMIOL_inquire_dim reports for one dimension of the variable. -/
structure DimInfo where
  dimsize : SMIOL_Offset
  is_unlimited : Bool
deriving DecidableEq

/-- Conversion of a signed 64-bit value to size_t as performed by the C
assignments start[i] = file->frame and count[i] = dimsize. -/
def to_size_t (x : Int) : Nat := (x % (2 : Int) ^ 64).toNat

/-- The (start[i], count[i]) pair for a non-decomposed dimension
(smiol.c lines 844-850 and 1042-1048): the current frame with count one
for an unlimited dimension, the whole extent otherwise. -/
def dim_entry (frame : SMIOL_Offset) (d : DimInfo) : Nat × Nat :=
  if d.is_unlimited then (to_size_t frame, 1) else (0, to_size_t d.dimsize)

/-- The start and count arrays built by the dimension loop of
SMIOL_put_var (lines 827-853) and SMIOL_get_var (lines 1025-1052): when
a decomp is present the first dimension takes (io_start, io_count) from
it and every other dimension is a dim_entry. -/
def start_count (decomp : Option SMIOL_decomp) (frame : SMIOL_Offset)
    (dims : List DimInfo) : List (Nat × Nat) :=
  match dims, decomp with
  | [], _ => []
  | _ :: rest, some dc => (dc.io_start, dc.io_count) :: rest.map (dim_entry frame)
  | d :: rest, none => dim_entry frame d :: rest.map (dim_entry frame)

/-- The innerdim_size accumulated by the same loop: the product of
dimsize over every dimension except the first when that one is taken
from the decomp (the multiplication at lines 851 and 1050 runs for both
unlimited and fixed dimensions). -/
def innerdim_size (decomp : Option SMIOL_decomp) (dims : List DimInfo) : Int :=
  match decomp with
  | some _ => ((dims.drop 1).map DimInfo.dimsize).prod
  | none => (dims.map DimInfo.dimsize).prod

/-- Calls made by SMIOL_put_var and SMIOL_get_var into the field
transfer engine and the pnetcdf backend, in program order: a
transfer_field call with its direction and element_size arguments, or a
collective vara call with its start and count arrays. -/
inductive IOEvent where
  | xfer (dir : Int) (element_size : Int)
  | put_vara (sc : List (Nat × Nat))
  | get_vara (sc : List (Nat × Nat))
deriving DecidableEq

/-- Outcomes of the external collaborators used by SMIOL_put_var: the
combined result of the SMIOL_inquire_var and SMIOL_inquire_dim calls
(an error code propagated on failure, else the vartype and the per-dim
information), the transfer_field result, and the success of
ncmpi_inq_varid, ncmpi_enddef and ncmpi_put_vara_all. -/
structure PutVarEnv where
  inq : Except SMIOLCode (SMIOL_vartype × List DimInfo)
  transfer_ierr : SMIOLCode
  inq_varid_ok : Bool
  enddef_ok : Bool
  write_ok : Bool

/-- SMIOL_put_var (smiol.c lines 776-945). buf_null says whether the
callers data pointer is NULL. Returns the code and the trace of
transfer_field and ncmpi_put_vara_all calls in program order. -/
def SMIOL_put_var (file : Option SMIOL_file) (decomp : Option SMIOL_decomp)
    (varname : Option String) (buf_null : Bool) (env : PutVarEnv) :
    SMIOLCode × List IOEvent :=
  match file with
  | none => (SMIOLCode.INVALID_ARGUMENT, [])
  | some f =>
    if varname = none then (SMIOLCode.INVALID_ARGUMENT, [])
    else if buf_null then (SMIOLCode.INVALID_ARGUMENT, [])
    else
      match env.inq with
      | Except.error e => (e, [])
      | Except.ok (vt, dims) =>
        let sc := start_count decomp f.frame dims
        let esize := (dsize vt : Int) * innerdim_size decomp dims
        match decomp with
        | some _ =>
          let ev1 := IOEvent.xfer smiol_comp_to_io esize
          if env.transfer_ierr ≠ SMIOLCode.SUCCESS then (env.transfer_ierr, [ev1])
          else if env.inq_varid_ok = false then (SMIOLCode.LIBRARY_ERROR, [ev1])
          else if f.state = pnetcdf_define_mode ∧ env.enddef_ok = false then
            (SMIOLCode.LIBRARY_ERROR, [ev1])
          else if env.write_ok = false then
            (SMIOLCode.LIBRARY_ERROR, [ev1, IOEvent.put_vara sc])
          else (SMIOLCode.SUCCESS, [ev1, IOEvent.put_vara sc])
        | none =>
          if env.inq_varid_ok = false then (SMIOLCode.LIBRARY_ERROR, [])
          else if f.state = pnetcdf_define_mode ∧ env.enddef_ok = false then
            (SMIOLCode.LIBRARY_ERROR, [])
          else if env.write_ok = false then
            (SMIOLCode.LIBRARY_ERROR, [IOEvent.put_vara sc])
          else (SMIOLCode.SUCCESS, [IOEvent.put_vara sc])

/-- Outcomes of the external collaborators used by SMIOL_get_var; the
transfer_field result is listed even though the source never examines it
(smiol.c line 1127 assigns ierr and line 1134 returns SMIOL_SUCCESS
regardless). -/
structure GetVarEnv where
  inq : Except SMIOLCode (SMIOL_vartype × List DimInfo)
  inq_varid_ok : Bool
  enddef_ok : Bool
  read_ok : Bool
  transfer_ierr : SMIOLCode

/-- SMIOL_get_var (smiol.c lines 969-1135). Returns the code and the
trace of ncmpi_get_vara_all and transfer_field calls in program order.
Note that when ncmpi_enddef fails this function returns the constant
SMIOL_LIBRARY_PNETCDF rather than SMIOL_LIBRARY_ERROR (line 1091). -/
def SMIOL_get_var (file : Option SMIOL_file) (decomp : Option SMIOL_decomp)
    (varname : Option String) (buf_null : Bool) (env : GetVarEnv) :
    SMIOLCode × List IOEvent :=
  match file with
  | none => (SMIOLCode.INVALID_ARGUMENT, [])
  | some f =>
    if varname = none then (SMIOLCode.INVALID_ARGUMENT, [])
    else if buf_null then (SMIOLCode.INVALID_ARGUMENT, [])
    else
      match env.inq with
      | Except.error e => (e, [])
      | Except.ok (vt, dims) =>
        let sc := start_count decomp f.frame dims
        let esize := (dsize vt : Int) * innerdim_size decomp dims
        if env.inq_varid_ok = false then (SMIOLCode.LIBRARY_ERROR, [])
        else if f.state = pnetcdf_define_mode ∧ env.enddef_ok = false then
          (SMIOLCode.LIBRARY_PNETCDF_CODE, [])
        else if env.read_ok = false then
          (SMIOLCode.LIBRARY_ERROR, [IOEvent.get_vara sc])
        else
          match decomp with
          | some _ =>
            (SMIOLCode.SUCCESS,
             [IOEvent.get_vara sc, IOEvent.xfer smiol_io_to_comp esize])
          | none => (SMIOLCode.SUCCESS, [IOEvent.get_vara sc])

/-
  Theorems.
-/

/-- C5: SMIOL_free_decomp always returns SMIOL_SUCCESS and has no error
outcomes. On a NULL handle (inner pointer NULL) it does nothing and
succeeds; on a valid handle it frees both triplet tables and the handle
and leaves the callers pointer NULL. -/
theorem free_decomp_always_success :
    ∀ d : Option SMIOL_decomp,
      SMIOL_free_decomp (some d) = some (SMIOLCode.SUCCESS, none) := by
  intro d
  cases d <;> rfl

/-- C9: for every non-NULL file handle and every frame value, including
negative values, SMIOL_set_frame succeeds and a subsequent
SMIOL_get_frame returns that value; SMIOL_set_frame on a NULL file, and
SMIOL_get_frame on a NULL file or NULL frame pointer, return
SMIOL_INVALID_ARGUMENT and change nothing. -/
theorem set_get_frame_roundtrip :
    ∀ (f : SMIOL_file) (v : SMIOL_Offset),
      (SMIOL_set_frame (some f) v).1 = SMIOLCode.SUCCESS ∧
      SMIOL_get_frame (SMIOL_set_frame (some f) v).2 true =
        (SMIOLCode.SUCCESS, some v) ∧
      SMIOL_set_frame none v = (SMIOLCode.INVALID_ARGUMENT, none) ∧
      SMIOL_get_frame none true = (SMIOLCode.INVALID_ARGUMENT, none) ∧
      SMIOL_get_frame (some f) false = (SMIOLCode.INVALID_ARGUMENT, none) := by
  intro f v
  exact ⟨rfl, rfl, rfl, rfl, rfl⟩

/-- C10: SMIOL_free_decomp dereferences its outer pointer argument
unconditionally, so the embedding assigns it no defined result on a NULL
outer pointer and a defined result exactly when the outer pointer is
non-NULL, whereas SMIOL_finalize and SMIOL_close_file guard the
analogous case and return SMIOL_SUCCESS on a NULL outer pointer. -/
theorem free_decomp_deref_vs_guards :
    SMIOL_free_decomp none = none ∧
    (∀ d : Option SMIOL_decomp, (SMIOL_free_decomp (some d)).isSome = true) ∧
    (∀ ok : Bool, SMIOL_finalize ok none = (SMIOLCode.SUCCESS, none)) ∧
    (∀ ok : Bool, SMIOL_close_file ok none = some (SMIOLCode.SUCCESS, none)) := by
  refine ⟨rfl, ?_, ?_, ?_⟩
  · intro d; cases d <;> rfl
  · intro ok; rfl
  · intro ok; rfl

/-- C1 is refuted on the code: a failing call of SMIOL_create_decomp
with a NULL context returns SMIOL_INVALID_ARGUMENT from the argument
check at smiol.c lines 1371-1373 without writing to the callers decomp
pointer cell, so a cell that held a non-NULL value before the call still
holds it on return, contradicting the claim (and the functions own
header comment at lines 1348-1351). -/
theorem create_decomp_context_null_keeps_handle :
    (SMIOL_create_decomp none 0 none 1 1 (some ⟨[], [], 0, 0⟩)
        ⟨some 0, true, ExchangeOutcome.success [] []⟩) =
      (SMIOLCode.INVALID_ARGUMENT, some ⟨[], [], 0, 0⟩, []) ∧
    (SMIOL_create_decomp none 0 none 1 1 (some ⟨[], [], 0, 0⟩)
        ⟨some 0, true, ExchangeOutcome.success [] []⟩).2.1 ≠ none := by
  exact ⟨rfl, by decide⟩

/-- C2 is refuted on the code: with the impossible policy
num_io_tasks = 0 the partitioner reports SMIOL_INVALID_ARGUMENT, but
SMIOL_create_decomp assigns that code to ierr at line 1415 and never
examines it; ierr is overwritten by the build_exchange result at line
1436, so on a single rank holding no elements the call returns
SMIOL_SUCCESS instead of propagating SMIOL_INVALID_ARGUMENT. -/
theorem create_decomp_discards_partitioner_error :
    (get_io_elements 0 0 1 0).1 = SMIOLCode.INVALID_ARGUMENT ∧
    (SMIOL_create_decomp (some ⟨1, 0⟩) 0 (some []) 0 1 none
        ⟨some 0, true, ExchangeOutcome.success [] []⟩).1 =
      SMIOLCode.SUCCESS := by
  exact ⟨by decide, by decide⟩

/-- C7: every return of SMIOL_create_decomp is one of SMIOL_SUCCESS,
SMIOL_INVALID_ARGUMENT, SMIOL_MALLOC_FAILURE or SMIOL_MPI_ERROR, and a
NULL context, or a NULL compute_elements array with a nonzero
n_compute_elements, yields SMIOL_INVALID_ARGUMENT. -/
theorem create_decomp_return_codes (context : Option SMIOL_context)
    (n_compute_elements : Nat) (compute_elements : Option (List SMIOL_Offset))
    (num_io_tasks io_stride : Int) (decomp0 : Option SMIOL_decomp)
    (oracle : CreateOracle) :
    ((SMIOL_create_decomp context n_compute_elements compute_elements
        num_io_tasks io_stride decomp0 oracle).1 = SMIOLCode.SUCCESS ∨
     (SMIOL_create_decomp context n_compute_elements compute_elements
        num_io_tasks io_stride decomp0 oracle).1 = SMIOLCode.INVALID_ARGUMENT ∨
     (SMIOL_create_decomp context n_compute_elements compute_elements
        num_io_tasks io_stride decomp0 oracle).1 = SMIOLCode.MALLOC_FAILURE ∨
     (SMIOL_create_decomp context n_compute_elements compute_elements
        num_io_tasks io_stride decomp0 oracle).1 = SMIOLCode.MPI_ERROR) ∧
    (context = none →
      (SMIOL_create_decomp context n_compute_elements compute_elements
        num_io_tasks io_stride decomp0 oracle).1 = SMIOLCode.INVALID_ARGUMENT) ∧
    (compute_elements = none → n_compute_elements ≠ 0 →
      (SMIOL_create_decomp context n_compute_elements compute_elements
        num_io_tasks io_stride decomp0 oracle).1 = SMIOLCode.INVALID_ARGUMENT) := by
  cases context with
  | none =>
    exact ⟨Or.inr (Or.inl rfl), fun _ => rfl, fun _ _ => rfl⟩
  | some ctx =>
    refine ⟨?_, fun h => absurd h (by simp), fun hce hn => ?_⟩
    · by_cases hce : compute_elements = none ∧ n_compute_elements ≠ 0
      · right; left
        simp only [SMIOL_create_decomp, if_pos hce]
      · simp only [SMIOL_create_decomp, if_neg hce]
        split
        · right; right; right; rfl
        · split
          · right; right; left; rfl
          · split
            · left; rfl
            · right; left; rfl
            · right; right; left; rfl
            · right; right; right; rfl
    · simp only [SMIOL_create_decomp, if_pos (And.intro hce hn)]

/-- C7 witness: a concrete NULL-compute-elements call returning
SMIOL_INVALID_ARGUMENT under the theorem. -/
theorem create_decomp_return_codes_witness :
    (SMIOL_create_decomp (some ⟨1, 0⟩) 3 none 1 1 none
        ⟨some 3, true, ExchangeOutcome.success [] []⟩).1 =
      SMIOLCode.INVALID_ARGUMENT :=
  (create_decomp_return_codes (some ⟨1, 0⟩) 3 none 1 1 none
      ⟨some 3, true, ExchangeOutcome.success [] []⟩).2.2 rfl (by decide)

/-- On a rank that is not an I/O rank, get_io_elements reports the
window (0, 0) whatever the policy. -/
theorem get_io_elements_non_io (r nio str : Int) (n : Nat)
    (h : io_rank_b r nio str = false) :
    (get_io_elements r nio str n).2 = (0, 0) := by
  unfold get_io_elements
  split
  · rfl
  · rw [h]
    simp

/-- The io_elements buffer content equals the dense sequence for every
window, the if at smiol.c line 1422 notwithstanding. -/
theorem build_io_elements_eq (s c : Nat) :
    build_io_elements s c =
      (List.range c).map (fun i => ((s + i : Nat) : Int)) := by
  unfold build_io_elements
  split
  · rfl
  · rename_i h
    have hc : c = 0 := by omega
    subst hc
    rfl

/-- C4: every successful call of SMIOL_create_decomp hands back a handle
carrying exactly the (io_start, io_count) pair computed by the
partitioner for this rank, and on ranks not chosen as I/O ranks both
fields are zero. -/
theorem create_decomp_success_attaches_window (ctx : SMIOL_context)
    (n_compute_elements : Nat) (compute_elements : Option (List SMIOL_Offset))
    (num_io_tasks io_stride : Int) (decomp0 : Option SMIOL_decomp)
    (oracle : CreateOracle) (ng : Nat)
    (hall : oracle.allreduce = some ng)
    (hsucc : (SMIOL_create_decomp (some ctx) n_compute_elements
        compute_elements num_io_tasks io_stride decomp0 oracle).1 =
        SMIOLCode.SUCCESS) :
    ∃ d : SMIOL_decomp,
      (SMIOL_create_decomp (some ctx) n_compute_elements compute_elements
          num_io_tasks io_stride decomp0 oracle).2.1 = some d ∧
      d.io_start =
        (get_io_elements ctx.comm_rank num_io_tasks io_stride ng).2.1 ∧
      d.io_count =
        (get_io_elements ctx.comm_rank num_io_tasks io_stride ng).2.2 ∧
      (io_rank_b ctx.comm_rank num_io_tasks io_stride = false →
        d.io_start = 0 ∧ d.io_count = 0) := by
  by_cases hce : compute_elements = none ∧ n_compute_elements ≠ 0
  · simp only [SMIOL_create_decomp, if_pos hce] at hsucc
    cases hsucc
  · simp only [SMIOL_create_decomp, if_neg hce, hall] at hsucc ⊢
    by_cases hm : 0 < (get_io_elements ctx.comm_rank num_io_tasks
        io_stride ng).2.2 ∧ oracle.malloc_ok = false
    · rw [if_pos hm] at hsucc
      cases hsucc
    · rw [if_neg hm] at hsucc
      rw [if_neg hm]
      cases hex : oracle.exchange with
      | success cl il =>
        refine ⟨_, rfl, rfl, rfl, fun hio => ?_⟩
        have h2 := get_io_elements_non_io ctx.comm_rank num_io_tasks
          io_stride ng hio
        constructor
        · show (get_io_elements ctx.comm_rank num_io_tasks io_stride ng).2.1 = 0
          rw [h2]
        · show (get_io_elements ctx.comm_rank num_io_tasks io_stride ng).2.2 = 0
          rw [h2]
      | invalid_argument => rw [hex] at hsucc; cases hsucc
      | malloc_failure => rw [hex] at hsucc; cases hsucc
      | mpi_error => rw [hex] at hsucc; cases hsucc

/-- C4 witness: a concrete successful single-rank call whose handle
carries the partitioner window (0, 2). -/
theorem create_decomp_success_attaches_window_witness :
    ∃ d : SMIOL_decomp,
      (SMIOL_create_decomp (some ⟨1, 0⟩) 2 (some [0, 1]) 1 1 none
          ⟨some 2, true, ExchangeOutcome.success [] []⟩).2.1 = some d ∧
      d.io_start = (get_io_elements 0 1 1 2).2.1 ∧
      d.io_count = (get_io_elements 0 1 1 2).2.2 ∧
      (io_rank_b 0 1 1 = false → d.io_start = 0 ∧ d.io_count = 0) :=
  create_decomp_success_attaches_window ⟨1, 0⟩ 2 (some [0, 1]) 1 1 none
    ⟨some 2, true, ExchangeOutcome.success [] []⟩ 2 rfl (by decide)

/-- C3: on every rank, the I/O-side element-ID list that
SMIOL_create_decomp hands to the exchange-plan builder is exactly the
dense sequence io_start, io_start + 1, ..., io_start + io_count - 1 for
the (io_start, io_count) pair computed by the partitioner for this rank,
together with the length io_count, and it is empty on ranks whose
io_count is zero. -/
theorem create_decomp_io_list_dense (ctx : SMIOL_context)
    (n_compute_elements : Nat) (compute_elements : Option (List SMIOL_Offset))
    (num_io_tasks io_stride : Int) (decomp0 : Option SMIOL_decomp)
    (oracle : CreateOracle) (ng : Nat)
    (hall : oracle.allreduce = some ng) :
    ∀ nc cl ni il,
      CreateEvent.exchange_call nc cl ni il ∈
        (SMIOL_create_decomp (some ctx) n_compute_elements compute_elements
            num_io_tasks io_stride decomp0 oracle).2.2 →
      il = (List.range
              (get_io_elements ctx.comm_rank num_io_tasks io_stride ng).2.2).map
             (fun i =>
               (((get_io_elements ctx.comm_rank num_io_tasks io_stride ng).2.1
                  + i : Nat) : Int)) ∧
      ni = (get_io_elements ctx.comm_rank num_io_tasks io_stride ng).2.2 ∧
      ((get_io_elements ctx.comm_rank num_io_tasks io_stride ng).2.2 = 0 →
        il = []) := by
  intro nc cl ni il hmem
  by_cases hce : compute_elements = none ∧ n_compute_elements ≠ 0
  · simp only [SMIOL_create_decomp, if_pos hce] at hmem
    cases hmem
  · simp only [SMIOL_create_decomp, if_neg hce, hall] at hmem
    by_cases hm : 0 < (get_io_elements ctx.comm_rank num_io_tasks
        io_stride ng).2.2 ∧ oracle.malloc_ok = false
    · rw [if_pos hm] at hmem
      cases hmem
    · rw [if_neg hm] at hmem
      have hev : CreateEvent.exchange_call nc cl ni il =
          CreateEvent.exchange_call n_compute_elements
            (compute_elements.getD [])
            (get_io_elements ctx.comm_rank num_io_tasks io_stride ng).2.2
            (build_io_elements
              (get_io_elements ctx.comm_rank num_io_tasks io_stride ng).2.1
              (get_io_elements ctx.comm_rank num_io_tasks io_stride ng).2.2) := by
        cases hex : oracle.exchange with
        | success c2 i2 =>
          rw [hex] at hmem
          simpa using hmem
        | invalid_argument =>
          rw [hex] at hmem
          simpa using hmem
        | malloc_failure =>
          rw [hex] at hmem
          simpa using hmem
        | mpi_error =>
          rw [hex] at hmem
          simpa using hmem
      injection hev with h1 h2 h3 h4
      refine ⟨?_, h3, ?_⟩
      · rw [h4, build_io_elements_eq]
      · intro hzero
        rw [h4, build_io_elements_eq, hzero]
        rfl

/-- C3 witness: a concrete single-rank call hands the builder exactly
the dense two-element list for the window (0, 2). -/
theorem create_decomp_io_list_dense_witness :
    ([0, 1] : List SMIOL_Offset) =
      (List.range (get_io_elements 0 1 1 2).2.2).map
        (fun i => (((get_io_elements 0 1 1 2).2.1 + i : Nat) : Int)) ∧
    (2 : Nat) = (get_io_elements 0 1 1 2).2.2 ∧
    ((get_io_elements 0 1 1 2).2.2 = 0 → ([0, 1] : List SMIOL_Offset) = []) :=
  create_decomp_io_list_dense ⟨1, 0⟩ 2 (some [0, 1]) 1 1 none
    ⟨some 2, true, ExchangeOutcome.success [] []⟩ 2 rfl
    2 [0, 1] 2 [0, 1] (by decide)

/-- C6: whenever a non-NULL decomp is supplied, the first-dimension
hyperslab of the collective vara call issued by SMIOL_put_var and
SMIOL_get_var is exactly start[0] = decomp->io_start and
count[0] = decomp->io_count, and transfer_field is invoked with
direction SMIOL_COMP_TO_IO before the write and with direction
SMIOL_IO_TO_COMP after the read. -/
theorem put_get_var_hyperslab (f : SMIOL_file) (d : SMIOL_decomp)
    (vn : String) (envp : PutVarEnv) (envg : GetVarEnv)
    (vt : SMIOL_vartype) (dims : List DimInfo)
    (hdims : dims ≠ [])
    (hp : envp.inq = Except.ok (vt, dims))
    (hg : envg.inq = Except.ok (vt, dims)) :
    (start_count (some d) f.frame dims).head? = some (d.io_start, d.io_count) ∧
    ((SMIOL_put_var (some f) (some d) (some vn) false envp).2 =
       [IOEvent.xfer smiol_comp_to_io
          ((dsize vt : Int) * innerdim_size (some d) dims)] ∨
     (SMIOL_put_var (some f) (some d) (some vn) false envp).2 =
       [IOEvent.xfer smiol_comp_to_io
          ((dsize vt : Int) * innerdim_size (some d) dims),
        IOEvent.put_vara (start_count (some d) f.frame dims)]) ∧
    ((SMIOL_put_var (some f) (some d) (some vn) false envp).1 =
        SMIOLCode.SUCCESS →
      (SMIOL_put_var (some f) (some d) (some vn) false envp).2 =
        [IOEvent.xfer smiol_comp_to_io
           ((dsize vt : Int) * innerdim_size (some d) dims),
         IOEvent.put_vara (start_count (some d) f.frame dims)]) ∧
    ((SMIOL_get_var (some f) (some d) (some vn) false envg).2 = [] ∨
     (SMIOL_get_var (some f) (some d) (some vn) false envg).2 =
       [IOEvent.get_vara (start_count (some d) f.frame dims)] ∨
     (SMIOL_get_var (some f) (some d) (some vn) false envg).2 =
       [IOEvent.get_vara (start_count (some d) f.frame dims),
        IOEvent.xfer smiol_io_to_comp
          ((dsize vt : Int) * innerdim_size (some d) dims)]) ∧
    ((SMIOL_get_var (some f) (some d) (some vn) false envg).1 =
        SMIOLCode.SUCCESS →
      (SMIOL_get_var (some f) (some d) (some vn) false envg).2 =
        [IOEvent.get_vara (start_count (some d) f.frame dims),
         IOEvent.xfer smiol_io_to_comp
           ((dsize vt : Int) * innerdim_size (some d) dims)]) := by
  refine ⟨?_, ?_⟩
  · cases dims with
    | nil => exact absurd rfl hdims
    | cons d0 rest => rfl
  · simp only [SMIOL_put_var, SMIOL_get_var, hp, hg, reduceIte]
    constructor
    · by_cases h1 : envp.transfer_ierr ≠ SMIOLCode.SUCCESS
      · rw [if_pos h1]
        exact Or.inl rfl
      · rw [if_neg h1]
        by_cases h2 : envp.inq_varid_ok = false
        · rw [if_pos h2]
          exact Or.inl rfl
        · rw [if_neg h2]
          by_cases h3 : f.state = pnetcdf_define_mode ∧ envp.enddef_ok = false
          · rw [if_pos h3]
            exact Or.inl rfl
          · rw [if_neg h3]
            by_cases h4 : envp.write_ok = false
            · rw [if_pos h4]
              exact Or.inr rfl
            · rw [if_neg h4]
              exact Or.inr rfl
    constructor
    · intro hs
      by_cases h1 : envp.transfer_ierr ≠ SMIOLCode.SUCCESS
      · rw [if_pos h1] at hs
        exact absurd hs h1
      · rw [if_neg h1] at hs ⊢
        by_cases h2 : envp.inq_varid_ok = false
        · rw [if_pos h2] at hs
          cases hs
        · rw [if_neg h2] at hs ⊢
          by_cases h3 : f.state = pnetcdf_define_mode ∧ envp.enddef_ok = false
          · rw [if_pos h3] at hs
            cases hs
          · rw [if_neg h3] at hs ⊢
            by_cases h4 : envp.write_ok = false
            · rw [if_pos h4] at hs
              cases hs
            · rw [if_neg h4]
              rfl
    constructor
    · by_cases h2 : envg.inq_varid_ok = false
      · rw [if_pos h2]
        exact Or.inl rfl
      · rw [if_neg h2]
        by_cases h3 : f.state = pnetcdf_define_mode ∧ envg.enddef_ok = false
        · rw [if_pos h3]
          exact Or.inl rfl
        · rw [if_neg h3]
          by_cases h4 : envg.read_ok = false
          · rw [if_pos h4]
            exact Or.inr (Or.inl rfl)
          · rw [if_neg h4]
            exact Or.inr (Or.inr rfl)
    · intro hs
      by_cases h2 : envg.inq_varid_ok = false
      · rw [if_pos h2] at hs
        cases hs
      · rw [if_neg h2] at hs ⊢
        by_cases h3 : f.state = pnetcdf_define_mode ∧ envg.enddef_ok = false
        · rw [if_pos h3] at hs
          cases hs
        · rw [if_neg h3] at hs ⊢
          by_cases h4 : envg.read_ok = false
          · rw [if_pos h4] at hs
            cases hs
          · rw [if_neg h4]
            rfl

/-- C6 witness: a concrete file, decomposition with window (3, 5), and
single fixed dimension, under the theorem. -/
theorem put_get_var_hyperslab_witness :
    (start_count (some ⟨[], [], 3, 5⟩) (0 : Int) [⟨4, false⟩]).head? =
      some (3, 5) ∧
    ((SMIOL_put_var (some ⟨0, 1⟩) (some ⟨[], [], 3, 5⟩) (some "v") false
        ⟨Except.ok (SMIOL_vartype.REAL32, [⟨4, false⟩]),
         SMIOLCode.SUCCESS, true, true, true⟩).2 =
       [IOEvent.xfer smiol_comp_to_io
          ((dsize SMIOL_vartype.REAL32 : Int) *
            innerdim_size (some ⟨[], [], 3, 5⟩) [⟨4, false⟩])] ∨
     (SMIOL_put_var (some ⟨0, 1⟩) (some ⟨[], [], 3, 5⟩) (some "v") false
        ⟨Except.ok (SMIOL_vartype.REAL32, [⟨4, false⟩]),
         SMIOLCode.SUCCESS, true, true, true⟩).2 =
       [IOEvent.xfer smiol_comp_to_io
          ((dsize SMIOL_vartype.REAL32 : Int) *
            innerdim_size (some ⟨[], [], 3, 5⟩) [⟨4, false⟩]),
        IOEvent.put_vara (start_count (some ⟨[], [], 3, 5⟩) (0 : Int)
          [⟨4, false⟩])]) ∧
    ((SMIOL_put_var (some ⟨0, 1⟩) (some ⟨[], [], 3, 5⟩) (some "v") false
        ⟨Except.ok (SMIOL_vartype.REAL32, [⟨4, false⟩]),
         SMIOLCode.SUCCESS, true, true, true⟩).1 = SMIOLCode.SUCCESS →
      (SMIOL_put_var (some ⟨0, 1⟩) (some ⟨[], [], 3, 5⟩) (some "v") false
        ⟨Except.ok (SMIOL_vartype.REAL32, [⟨4, false⟩]),
         SMIOLCode.SUCCESS, true, true, true⟩).2 =
       [IOEvent.xfer smiol_comp_to_io
          ((dsize SMIOL_vartype.REAL32 : Int) *
            innerdim_size (some ⟨[], [], 3, 5⟩) [⟨4, false⟩]),
        IOEvent.put_vara (start_count (some ⟨[], [], 3, 5⟩) (0 : Int)
          [⟨4, false⟩])]) ∧
    ((SMIOL_get_var (some ⟨0, 1⟩) (some ⟨[], [], 3, 5⟩) (some "v") false
        ⟨Except.ok (SMIOL_vartype.REAL32, [⟨4, false⟩]),
         true, true, true, SMIOLCode.SUCCESS⟩).2 = [] ∨
     (SMIOL_get_var (some ⟨0, 1⟩) (some ⟨[], [], 3, 5⟩) (some "v") false
        ⟨Except.ok (SMIOL_vartype.REAL32, [⟨4, false⟩]),
         true, true, true, SMIOLCode.SUCCESS⟩).2 =
       [IOEvent.get_vara (start_count (some ⟨[], [], 3, 5⟩) (0 : Int)
          [⟨4, false⟩])] ∨
     (SMIOL_get_var (some ⟨0, 1⟩) (some ⟨[], [], 3, 5⟩) (some "v") false
        ⟨Except.ok (SMIOL_vartype.REAL32, [⟨4, false⟩]),
         true, true, true, SMIOLCode.SUCCESS⟩).2 =
       [IOEvent.get_vara (start_count (some ⟨[], [], 3, 5⟩) (0 : Int)
          [⟨4, false⟩]),
        IOEvent.xfer smiol_io_to_comp
          ((dsize SMIOL_vartype.REAL32 : Int) *
            innerdim_size (some ⟨[], [], 3, 5⟩) [⟨4, false⟩])]) ∧
    ((SMIOL_get_var (some ⟨0, 1⟩) (some ⟨[], [], 3, 5⟩) (some "v") false
        ⟨Except.ok (SMIOL_vartype.REAL32, [⟨4, false⟩]),
         true, true, true, SMIOLCode.SUCCESS⟩).1 = SMIOLCode.SUCCESS →
      (SMIOL_get_var (some ⟨0, 1⟩) (some ⟨[], [], 3, 5⟩) (some "v") false
        ⟨Except.ok (SMIOL_vartype.REAL32, [⟨4, false⟩]),
         true, true, true, SMIOLCode.SUCCESS⟩).2 =
       [IOEvent.get_vara (start_count (some ⟨[], [], 3, 5⟩) (0 : Int)
          [⟨4, false⟩]),
        IOEvent.xfer smiol_io_to_comp
          ((dsize SMIOL_vartype.REAL32 : Int) *
            innerdim_size (some ⟨[], [], 3, 5⟩) [⟨4, false⟩])]) :=
  put_get_var_hyperslab ⟨0, 1⟩ ⟨[], [], 3, 5⟩ "v"
    ⟨Except.ok (SMIOL_vartype.REAL32, [⟨4, false⟩]),
     SMIOLCode.SUCCESS, true, true, true⟩
    ⟨Except.ok (SMIOL_vartype.REAL32, [⟨4, false⟩]),
     true, true, true, SMIOLCode.SUCCESS⟩
    SMIOL_vartype.REAL32 [⟨4, false⟩] (by decide) rfl rfl

/-- Ceiling division identity: when m does not divide n, the ceiling of
n / m is one more than the floor. -/
theorem nat_ceil_div_eq (n m : Nat) (hm : 0 < m) (hr : n % m ≠ 0) :
    (n + m - 1) / m = n / m + 1 := by
  have hdm := Nat.div_add_mod n m
  have hlt : n % m < m := Nat.mod_lt _ hm
  have h1 : 1 ≤ n % m := Nat.one_le_iff_ne_zero.mpr hr
  have hmul : m * (n / m + 1) = m * (n / m) + m := by ring
  have heq : n + m - 1 = (n % m - 1) + m * (n / m + 1) := by omega
  rw [heq, Nat.add_mul_div_left _ _ hm, Nat.div_eq_of_lt (by omega)]
  omega

/-- The j-th I/O rank (rank j * io_stride) receives the j-th block. -/
theorem get_io_elements_at_stride (num_io_tasks io_stride : Int) (n : Nat)
    (j : Nat) (hnio : 0 < num_io_tasks) (hstr : 0 < io_stride)
    (hj : (j : Int) < num_io_tasks) :
    get_io_elements ((j : Int) * io_stride) num_io_tasks io_stride n =
      (SMIOLCode.SUCCESS, io_block_start n num_io_tasks.toNat j,
       io_block_size n num_io_tasks.toNat j) := by
  have h0 : ¬ (num_io_tasks ≤ 0 ∨ io_stride ≤ 0) := by omega
  have hio : io_rank_b ((j : Int) * io_stride) num_io_tasks io_stride = true := by
    simp only [io_rank_b, decide_eq_true_eq]
    refine ⟨mul_nonneg (Int.natCast_nonneg j) hstr.le, ?_,
      Int.mul_emod_left _ _⟩
    exact mul_lt_mul_of_pos_right hj hstr
  have hs : (io_stride.toNat : Int) = io_stride := Int.toNat_of_nonneg hstr.le
  have hcast : ((j : Int) * io_stride) = ((j * io_stride.toNat : Nat) : Int) := by
    push_cast
    rw [hs]
  have hstrN : 0 < io_stride.toNat := by omega
  unfold get_io_elements
  rw [if_neg h0, if_pos hio, hcast, Int.toNat_natCast,
    Nat.mul_div_cancel _ hstrN]

/-- C8: for every valid policy the partitioner divides n_global into
num_io_tasks contiguous blocks; the first n_global mod num_io_tasks I/O
ranks in ascending I/O-rank order receive the ceiling of
n_global / num_io_tasks elements, the remaining I/O ranks receive the
floor, io_start equals the sum of the counts of all preceding I/O ranks,
and non-I/O ranks get (0, 0); in particular with group size 2,
n_global = 5, num_io_tasks = 2, io_stride = 1 the windows are (0, 3) on
rank 0 and (3, 2) on rank 1. -/
theorem get_io_elements_block_partition (comm_rank num_io_tasks io_stride : Int)
    (n : Nat) (hnio : 0 < num_io_tasks) (hstr : 0 < io_stride) :
    (io_rank_b comm_rank num_io_tasks io_stride = true →
      (get_io_elements comm_rank num_io_tasks io_stride n).1 =
        SMIOLCode.SUCCESS ∧
      (comm_rank.toNat / io_stride.toNat < n % num_io_tasks.toNat →
        (get_io_elements comm_rank num_io_tasks io_stride n).2.2 =
          (n + num_io_tasks.toNat - 1) / num_io_tasks.toNat) ∧
      (n % num_io_tasks.toNat ≤ comm_rank.toNat / io_stride.toNat →
        (get_io_elements comm_rank num_io_tasks io_stride n).2.2 =
          n / num_io_tasks.toNat) ∧
      (get_io_elements comm_rank num_io_tasks io_stride n).2.1 =
        ((List.range (comm_rank.toNat / io_stride.toNat)).map
          (fun (j : Nat) => (get_io_elements ((j : Int) * io_stride)
              num_io_tasks io_stride n).2.2)).sum) ∧
    (io_rank_b comm_rank num_io_tasks io_stride = false →
      get_io_elements comm_rank num_io_tasks io_stride n =
        (SMIOLCode.SUCCESS, 0, 0)) ∧
    get_io_elements 0 2 1 5 = (SMIOLCode.SUCCESS, 0, 3) ∧
    get_io_elements 1 2 1 5 = (SMIOLCode.SUCCESS, 3, 2) := by
  have h0 : ¬ (num_io_tasks ≤ 0 ∨ io_stride ≤ 0) := by omega
  refine ⟨?_, ?_, by decide, by decide⟩
  · intro hio
    have hmain : get_io_elements comm_rank num_io_tasks io_stride n =
        (SMIOLCode.SUCCESS,
         io_block_start n num_io_tasks.toNat
           (comm_rank.toNat / io_stride.toNat),
         io_block_size n num_io_tasks.toNat
           (comm_rank.toNat / io_stride.toNat)) := by
      unfold get_io_elements
      rw [if_neg h0, if_pos hio]
    have hio2 := hio
    simp only [io_rank_b, decide_eq_true_eq] at hio2
    obtain ⟨hr0, hrlt, hmod⟩ := hio2
    have hnioc : (num_io_tasks.toNat : Int) = num_io_tasks :=
      Int.toNat_of_nonneg hnio.le
    have hstrc : (io_stride.toNat : Int) = io_stride :=
      Int.toNat_of_nonneg hstr.le
    have hrc : (comm_rank.toNat : Int) = comm_rank := Int.toNat_of_nonneg hr0
    have hrn : comm_rank.toNat < num_io_tasks.toNat * io_stride.toNat := by
      have h2 : (comm_rank.toNat : Int) <
          (num_io_tasks.toNat : Int) * (io_stride.toNat : Int) := by
        rw [hrc, hnioc, hstrc]
        exact hrlt
      exact_mod_cast h2
    have hstrN : 0 < io_stride.toNat := by omega
    have hklt : comm_rank.toNat / io_stride.toNat < num_io_tasks.toNat :=
      (Nat.div_lt_iff_lt_mul hstrN).mpr hrn
    have hnioN : 0 < num_io_tasks.toNat := by omega
    refine ⟨by rw [hmain], ?_, ?_, ?_⟩
    · intro hlt
      rw [hmain]
      show io_block_size n num_io_tasks.toNat
        (comm_rank.toNat / io_stride.toNat) = _
      have hne : n % num_io_tasks.toNat ≠ 0 :=
        Nat.pos_iff_ne_zero.mp (Nat.lt_of_le_of_lt (Nat.zero_le _) hlt)
      rw [io_block_size, if_pos hlt, nat_ceil_div_eq n num_io_tasks.toNat hnioN hne]
    · intro hge
      rw [hmain]
      show io_block_size n num_io_tasks.toNat
        (comm_rank.toNat / io_stride.toNat) = _
      rw [io_block_size, if_neg (by omega)]
      omega
    · rw [hmain]
      show io_block_start n num_io_tasks.toNat
        (comm_rank.toNat / io_stride.toNat) = _
      rw [io_block_start]
      congr 1
      refine List.map_congr_left ?_
      intro j hjmem
      have hjk : j < comm_rank.toNat / io_stride.toNat :=
        List.mem_range.mp hjmem
      have hjI : (j : Int) < num_io_tasks := by
        rw [← hnioc]
        exact_mod_cast lt_trans hjk hklt
      rw [get_io_elements_at_stride num_io_tasks io_stride n j hnio hstr hjI]
  · intro hio
    unfold get_io_elements
    rw [if_neg h0, hio]
    simp

/-- C8 witness: rank 1 under the policy num_io_tasks = 2, io_stride = 1
with n_global = 5, under the theorem. -/
theorem get_io_elements_block_partition_witness :
    ((io_rank_b 1 2 1 = true →
      (get_io_elements 1 2 1 5).1 = SMIOLCode.SUCCESS ∧
      ((1 : Int).toNat / (1 : Int).toNat < 5 % (2 : Int).toNat →
        (get_io_elements 1 2 1 5).2.2 =
          (5 + (2 : Int).toNat - 1) / (2 : Int).toNat) ∧
      (5 % (2 : Int).toNat ≤ (1 : Int).toNat / (1 : Int).toNat →
        (get_io_elements 1 2 1 5).2.2 = 5 / (2 : Int).toNat) ∧
      (get_io_elements 1 2 1 5).2.1 =
        ((List.range ((1 : Int).toNat / (1 : Int).toNat)).map
          (fun (j : Nat) => (get_io_elements ((j : Int) * 1) 2 1 5).2.2)).sum) ∧
    (io_rank_b 1 2 1 = false →
      get_io_elements 1 2 1 5 = (SMIOLCode.SUCCESS, 0, 0)) ∧
    get_io_elements 0 2 1 5 = (SMIOLCode.SUCCESS, 0, 3) ∧
    get_io_elements 1 2 1 5 = (SMIOLCode.SUCCESS, 3, 2)) :=
  get_io_elements_block_partition 1 2 1 5 (by decide) (by decide)
